import Mathlib

/-!
Shallow embedding of the fraud-chatbot agent core: the SQL keyword guard and
tool wrapper of engine/agent.py, the SQLite read-query store of
engine/sqlite_manager.py, and the knowledge-base retrieval layer of
engine/faiss_manager.py.  Strings are embedded as lists of characters; the
embedding of the regular expressions and case mappings is exact on ASCII
input (Python uses Unicode-aware classes, which coincide with these
definitions on ASCII).
-/

/-- ASCII word character: letters, digits and underscore.  This is the
character class of the regex metacharacter for word characters on ASCII
input, used by the guard pattern of agent.py line 70. -/
def isWordChar (c : Char) : Bool := c.isAlphanum || c == '_'

/-- The ASCII whitespace set stripped by Python str.strip: space, tab,
newline, vertical tab, form feed, carriage return. -/
def pySpace (c : Char) : Bool :=
  c == ' ' || c == '\t' || c == '\n' || c == '\x0b' || c == '\x0c' || c == '\r'

/-- Python str.strip: drop leading and trailing whitespace. -/
def pyStrip (s : List Char) : List Char :=
  ((s.dropWhile pySpace).reverse.dropWhile pySpace).reverse

/-- Every character of the string is ASCII. -/
def allASCII (s : List Char) : Bool := s.all (fun c => c.toNat < 128)

/-- The keyword kw matches case-insensitively at the head of s, and the
match is right-bounded: s ends exactly there or continues with a non-word
character.  This is the trailing part of the guard pattern of agent.py
line 70, which requires a non-word character or the string end after the
keyword. -/
def matchBounded : List Char → List Char → Bool
  | [], [] => true
  | [], c :: _ => !(isWordChar c)
  | _ :: _, [] => false
  | k :: ks, c :: cs => (c.toUpper == k) && matchBounded ks cs

/-- A right-bounded occurrence of the keyword strictly after the first
position: some position is preceded by a non-word character and matches the
keyword there with its right boundary. -/
def occursInner (kw : List Char) : List Char → Bool
  | [] => false
  | c :: cs => ((!(isWordChar c)) && matchBounded kw cs) || occursInner kw cs

/-- re.search of the guard pattern of agent.py line 70 with re.IGNORECASE:
the keyword occurs somewhere in s as a standalone token, bounded on the
left by the string edge or a non-word character and on the right by the
string edge or a non-word character. -/
def standaloneOccurs (kw s : List Char) : Bool :=
  matchBounded kw s || occursInner kw s

/-- The destructive keywords of agent.py line 63, in source order. -/
def forbidden_keywords : List (List Char) :=
  [("UPDATE").data, ("DELETE").data, ("INSERT").data, ("DROP").data,
   ("ALTER").data, ("CREATE").data, ("TRUNCATE").data]

/-- The keyword gate of NokchaAgent.query_sql (agent.py lines 60-74): strip
the query, then scan the forbidden keywords in list order and raise on the
first one that occurs as a standalone token.  some kw models the raised
ValueError naming kw; none models falling through towards execution (the
subsequent leading-SELECT re.match on line 77 only logs a warning and
blocks nothing). -/
def query_sql_guard (query : List Char) : Option (List Char) :=
  let normalized_query := pyStrip query
  forbidden_keywords.find? (fun kw => standaloneOccurs kw normalized_query)

/-- A result row: a mapping from column name to value (values abstracted as
integers; sqlite3.Row is converted to a dict in sqlite_manager.py line 87). -/
abbrev Row := List (List Char × Int)

/-- Outcome of handing a statement to the sqlite engine: a list of rows, or
a raised sqlite3.Error. -/
inductive ExecOutcome where
  | rows (rs : List Row)
  | sqlErr

/-- The ValueError raised by execute_read_query for non-SELECT-leading
queries (sqlite_manager.py line 81). -/
inductive StoreError where
  | rejectedQuery
deriving DecidableEq

/-- leadsWith p s: p is a character-wise leading segment of s.  This is
str.startswith. -/
def leadsWith : List Char → List Char → Bool
  | [], _ => true
  | _ :: _, [] => false
  | p :: ps, c :: cs => (p == c) && leadsWith ps cs

/-- query.strip().upper().startswith of SELECT (sqlite_manager.py line 79):
a character-prefix check on the stripped, upper-cased query. -/
def startsWithSelect (q : List Char) : Bool :=
  leadsWith (("SELECT").data) ((pyStrip q).map Char.toUpper)

/-- Execution trace of SQLiteDBManager.execute_read_query: the returned or
raised result, how many connections the call opened and closed, and whether
a statement was handed to the database engine (cursor.execute reached). -/
structure ExecTrace where
  result : Except StoreError (List Row)
  opened : Nat
  closed : Nat
  dbExecuted : Bool

/-- SQLiteDBManager.execute_read_query (sqlite_manager.py lines 57-94) with
its resource behavior made explicit.  connectOk models whether
sqlite3.connect succeeds (a failure is a sqlite3.Error caught by the except
clause, returning the empty list with no connection opened).  With a
connection open: a query whose stripped upper-case text does not start with
SELECT raises ValueError before cursor.execute (the finally clause still
closes the connection); otherwise the statement is executed, a sqlite3.Error
is converted to the empty list, and on every path the finally clause closes
the one opened connection. -/
def execute_read_query_tr (connectOk : Bool) (exec : List Char → ExecOutcome)
    (query : List Char) : ExecTrace :=
  if connectOk then
    if startsWithSelect query then
      match exec query with
      | .rows rs => ⟨.ok rs, 1, 1, true⟩
      | .sqlErr => ⟨.ok [], 1, 1, true⟩
    else ⟨.error .rejectedQuery, 1, 1, false⟩
  else ⟨.ok [], 0, 0, false⟩

/-- The value-level view of execute_read_query under a working connection:
ok rows, ok [] on engine failure, or the raised ValueError. -/
def execute_read_query (exec : List Char → ExecOutcome) (query : List Char) :
    Except StoreError (List Row) :=
  (execute_read_query_tr true exec query).result

/-- One entry of self.tool_calls: tool_name, query and status strings
(agent.py lines 35 and 89). -/
structure ToolCallRecord where
  tool_name : List Char
  query : List Char
  status : List Char
deriving DecidableEq

/-- Result of one invocation of the query_sql tool: the ValueError raised by
the keyword gate naming the keyword, a re-raised store error, or the rows
returned to the model. -/
inductive SqlToolResult where
  | rejected (kw : List Char)
  | dbError
  | ok (rows : List Row)
deriving DecidableEq

def sqlToolName : List Char := ("query_sql").data

def vecToolName : List Char := ("query_vector_db").data

def successStatus : List Char := ("success").data

/-- NokchaAgent.query_sql (agent.py lines 38-93): run the keyword gate; if
it raises, the error propagates with the ledger untouched.  Otherwise call
execute_read_query; on success append a success record and return the rows;
on a raised error log and re-raise with the ledger untouched (the except
clause on lines 91-93 appends nothing). -/
def query_sql (exec : List Char → ExecOutcome) (tool_calls : List ToolCallRecord)
    (query : List Char) : SqlToolResult × List ToolCallRecord :=
  match query_sql_guard query with
  | some kw => (.rejected kw, tool_calls)
  | none =>
    match execute_read_query exec query with
    | .error _ => (.dbError, tool_calls)
    | .ok rows => (.ok rows, tool_calls ++ [⟨sqlToolName, query, successStatus⟩])

/-- A document of the knowledge base: page content plus the id metadata
field. -/
structure Document where
  page_content : List Char
  meta_id : List Char
deriving DecidableEq

/-- The placeholder document of faiss_manager.py line 81. -/
def dummy_doc : Document := ⟨("init").data, ("dummy").data⟩

/-- The no-PDF branch of KnowledgeBaseManager (faiss_manager.py lines
77-85): when get_pdf_files finds nothing, the index is created from the
single placeholder document, so the freshly created knowledge base is a
one-document index, not a zero-document one. -/
def index_from_no_pdfs : List Document := [dummy_doc]

/-- Model of the external FAISS similarity_search_with_relevance_scores:
returns up to k documents of the store paired with relevance scores.  The
embedding distance is abstracted into the score oracle and the candidate
ranking into the store order; only the membership and length behavior (all
store documents when the store is smaller than k, at most k otherwise) is
relied on by the theorems below. -/
def similarity_search_with_relevance_scores (score : List Char → Document → Int)
    (store : List Document) (query : List Char) (k : Nat) :
    List (Document × Int) :=
  (store.map (fun d => (d, score query d))).take k

/-- KnowledgeBaseManager.retrieve (faiss_manager.py lines 117-130): calls
the similarity search with k = fetch_k and returns its result directly;
top_k is accepted but never used (the re-ranking stage is a TODO comment in
the source). -/
def retrieve (search : List Char → Nat → List (Document × Int))
    (query : List Char) (top_k : Nat) (fetch_k : Nat) :
    List (Document × Int) :=
  search query fetch_k

/-- NokchaAgent.query_vector_db (agent.py lines 29-36): retrieves with the
source defaults (top_k 5, fetch_k 20) and always appends a success record. -/
def query_vector_db (search : List Char → Nat → List (Document × Int))
    (tool_calls : List ToolCallRecord) (query : List Char) :
    List (Document × Int) × List ToolCallRecord :=
  (retrieve search query 5 20, tool_calls ++ [⟨vecToolName, query, successStatus⟩])

/-- One tool decision of the reasoning model: which tool the deep-agent
loop invokes with which argument.  The model itself is external, so a run
is driven by this oracle script. -/
inductive ToolStep where
  | vec (q : List Char)
  | sql (q : List Char)

/-- Effect of one dispatched tool call on the ledger. -/
def stepLedger (search : List Char → Nat → List (Document × Int))
    (exec : List Char → ExecOutcome) (tool_calls : List ToolCallRecord) :
    ToolStep → List ToolCallRecord
  | .vec q => (query_vector_db search tool_calls q).2
  | .sql q => (query_sql exec tool_calls q).2

/-- The ledger after a sequence of tool calls starting from a given ledger. -/
def runLedger (search : List Char → Nat → List (Document × Int))
    (exec : List Char → ExecOutcome) (steps : List ToolStep)
    (tool_calls : List ToolCallRecord) : List ToolCallRecord :=
  steps.foldl (stepLedger search exec) tool_calls

/-- The instance state of NokchaAgent that survives between runs: the
self.tool_calls list (agent.py line 20). -/
structure AgentState where
  tool_calls : List ToolCallRecord

/-- NokchaAgent.aeval (agent.py lines 95-113): sets self.tool_calls to the
empty list, runs the agent loop (whose tool choices are the oracle script),
and returns the final answer together with self.tool_calls, leaving the new
ledger in the instance state. -/
def aeval (search : List Char → Nat → List (Document × Int))
    (exec : List Char → ExecOutcome) (st : AgentState) (steps : List ToolStep)
    (answer : List Char) : (List Char × List ToolCallRecord) × AgentState :=
  let final := runLedger search exec steps []
  ((answer, final), ⟨final⟩)

/-- NokchaAgent.ainvoke (agent.py lines 115-124): the streaming mode; it
also sets self.tool_calls to the empty list before streaming chunks, and
only the chunks are yielded. -/
def ainvoke (search : List Char → Nat → List (Document × Int))
    (exec : List Char → ExecOutcome) (st : AgentState) (steps : List ToolStep)
    (chunks : List (List Char)) : List (List Char) × AgentState :=
  let final := runLedger search exec steps []
  (chunks, ⟨final⟩)

/-! Concrete inputs used by the witnesses and counterexamples. -/

def dropQuery : List Char := ("SELECT * FROM fraud_data; DROP TABLE fraud_data").data

def createdByQuery : List Char := ("SELECT createdBy FROM fraud_data").data

def pragmaQuery : List Char := ("PRAGMA table_info(fraud_data)").data

def selectionQuery : List Char := ("SELECTION label FROM fraud_data").data

def missingTableQuery : List Char := ("SELECT amt FROM no_such_table").data

def execEmpty : List Char → ExecOutcome := fun _ => .rows []

def execFail : List Char → ExecOutcome := fun _ => .sqlErr

def score0 : List Char → Document → Int := fun _ _ => 0

def score1 : List Char → Document → Int := fun _ _ => 1

/-! Side conditions on the guard keywords. -/

/-- Every character is an ASCII uppercase letter. -/
def allUpper (kw : List Char) : Bool :=
  kw.all (fun k => decide (65 ≤ k.toNat) && decide (k.toNat ≤ 90))

/-- A well-formed guard keyword: nonempty and all uppercase letters. -/
def kwGood (kw : List Char) : Bool := (!kw.isEmpty) && allUpper kw

theorem forbidden_kwGood : ∀ kw ∈ forbidden_keywords, kwGood kw = true := by decide

/-! Properties of the whitespace set. -/

theorem pySpace_cases {c : Char} (h : pySpace c = true) :
    c = ' ' ∨ c = '\t' ∨ c = '\n' ∨ c = '\x0b' ∨ c = '\x0c' ∨ c = '\r' := by
  simp only [pySpace, Bool.or_eq_true, beq_iff_eq] at h
  tauto

theorem pySpace_not_word {c : Char} (h : pySpace c = true) : isWordChar c = false := by
  rcases pySpace_cases h with h | h | h | h | h | h <;> subst h <;> decide

theorem pySpace_toUpper_lt {c : Char} (h : pySpace c = true) : c.toUpper.toNat < 65 := by
  rcases pySpace_cases h with h | h | h | h | h | h <;> subst h <;> decide

theorem toUpper_ne_of_space {c k : Char} (hc : pySpace c = true) (hk : 65 ≤ k.toNat) :
    (c.toUpper == k) = false := by
  have h1 := pySpace_toUpper_lt hc
  rw [beq_eq_false_iff_ne]
  intro he
  rw [he] at h1
  omega

theorem allUpper_head {k : Char} {ks : List Char} (h : allUpper (k :: ks) = true) :
    65 ≤ k.toNat := by
  simp only [allUpper, List.all_cons, Bool.and_eq_true, decide_eq_true_eq] at h
  exact h.1.1

theorem allUpper_tail {k : Char} {ks : List Char} (h : allUpper (k :: ks) = true) :
    allUpper ks = true := by
  simp only [allUpper, List.all_cons, Bool.and_eq_true] at h
  exact h.2

/-! Invariance of the standalone-occurrence predicate under stripping edge
whitespace: the guard scans the stripped query, but whitespace edges are
non-word characters, so they neither create nor destroy a standalone
occurrence. -/

theorem matchBounded_append {t : List Char} (ht : ∀ c ∈ t, pySpace c = true)
    (s : List Char) :
    ∀ kw : List Char, allUpper kw = true →
      matchBounded kw (s ++ t) = matchBounded kw s := by
  induction s with
  | nil =>
    intro kw hkw
    cases kw with
    | nil =>
      cases t with
      | nil => rfl
      | cons c ts =>
        have hc := ht c (by simp)
        simp [matchBounded, pySpace_not_word hc]
    | cons k ks =>
      cases t with
      | nil => rfl
      | cons c ts =>
        have hc := ht c (by simp)
        simp [matchBounded, toUpper_ne_of_space hc (allUpper_head hkw)]
  | cons c cs ih =>
    intro kw hkw
    cases kw with
    | nil => simp [matchBounded, List.cons_append]
    | cons k ks =>
      simp [matchBounded, List.cons_append, ih ks (allUpper_tail hkw)]

theorem matchBounded_space {k : Char} {ks t : List Char} (hk : 65 ≤ k.toNat)
    (ht : ∀ c ∈ t, pySpace c = true) : matchBounded (k :: ks) t = false := by
  cases t with
  | nil => rfl
  | cons c ts => simp [matchBounded, toUpper_ne_of_space (ht c (by simp)) hk]

theorem occursInner_space {k : Char} {ks : List Char} (hk : 65 ≤ k.toNat) :
    ∀ t : List Char, (∀ c ∈ t, pySpace c = true) →
      occursInner (k :: ks) t = false := by
  intro t
  induction t with
  | nil => intro _; rfl
  | cons c ts ih =>
    intro ht
    have h1 : matchBounded (k :: ks) ts = false :=
      matchBounded_space hk (fun x hx => ht x (by simp [hx]))
    simp [occursInner, h1, ih (fun x hx => ht x (by simp [hx]))]

theorem occursInner_append {k : Char} {ks t : List Char}
    (hkk : allUpper (k :: ks) = true) (ht : ∀ c ∈ t, pySpace c = true)
    (s : List Char) :
    occursInner (k :: ks) (s ++ t) = occursInner (k :: ks) s := by
  induction s with
  | nil =>
    simp only [List.nil_append, occursInner]
    exact occursInner_space (allUpper_head hkk) t ht
  | cons c cs ih =>
    simp [occursInner, List.cons_append, ih, matchBounded_append ht cs (k :: ks) hkk]

theorem standaloneOccurs_append {kw t : List Char} (hkw : kwGood kw = true)
    (ht : ∀ c ∈ t, pySpace c = true) (s : List Char) :
    standaloneOccurs kw (s ++ t) = standaloneOccurs kw s := by
  cases kw with
  | nil => simp [kwGood] at hkw
  | cons k ks =>
    have hup : allUpper (k :: ks) = true := by
      simp only [kwGood, Bool.and_eq_true] at hkw
      exact hkw.2
    unfold standaloneOccurs
    rw [matchBounded_append ht s (k :: ks) hup, occursInner_append hup ht s]

theorem standaloneOccurs_dropWhile {kw : List Char} (hkw : kwGood kw = true)
    (s : List Char) :
    standaloneOccurs kw (s.dropWhile pySpace) = standaloneOccurs kw s := by
  cases kw with
  | nil => simp [kwGood] at hkw
  | cons k ks =>
    have hk : 65 ≤ k.toNat := by
      simp only [kwGood, Bool.and_eq_true] at hkw
      exact allUpper_head hkw.2
    induction s with
    | nil => rfl
    | cons c cs ih =>
      by_cases hc : pySpace c = true
      · have h2 : standaloneOccurs (k :: ks) (c :: cs) = standaloneOccurs (k :: ks) cs := by
          simp [standaloneOccurs, matchBounded, occursInner,
            toUpper_ne_of_space hc hk, pySpace_not_word hc]
        rw [List.dropWhile_cons_of_pos hc, ih, h2]
      · rw [List.dropWhile_cons_of_neg hc]

theorem standaloneOccurs_pyStrip {kw : List Char} (hkw : kwGood kw = true)
    (q : List Char) :
    standaloneOccurs kw (pyStrip q) = standaloneOccurs kw q := by
  have h1 : standaloneOccurs kw (q.dropWhile pySpace) = standaloneOccurs kw q :=
    standaloneOccurs_dropWhile hkw q
  have hsplit : q.dropWhile pySpace =
      ((q.dropWhile pySpace).reverse.dropWhile pySpace).reverse ++
        ((q.dropWhile pySpace).reverse.takeWhile pySpace).reverse := by
    conv_lhs =>
      rw [← List.reverse_reverse (q.dropWhile pySpace),
        ← List.takeWhile_append_dropWhile pySpace ((q.dropWhile pySpace).reverse)]
    rw [List.reverse_append]
  have ht : ∀ c ∈ ((q.dropWhile pySpace).reverse.takeWhile pySpace).reverse,
      pySpace c = true := by
    intro c hc
    rw [List.mem_reverse] at hc
    exact List.mem_takeWhile_imp hc
  calc standaloneOccurs kw (pyStrip q)
      = standaloneOccurs kw
          (((q.dropWhile pySpace).reverse.dropWhile pySpace).reverse ++
            ((q.dropWhile pySpace).reverse.takeWhile pySpace).reverse) :=
        (standaloneOccurs_append hkw ht _).symm
    _ = standaloneOccurs kw (q.dropWhile pySpace) := by rw [← hsplit]
    _ = standaloneOccurs kw q := h1

/-! Ledger lemmas: tool dispatch only ever appends to the ledger. -/

theorem stepLedger_append (search : List Char → Nat → List (Document × Int))
    (exec : List Char → ExecOutcome) (l : List ToolCallRecord) (s : ToolStep) :
    stepLedger search exec l s = l ++ stepLedger search exec [] s := by
  cases s with
  | vec q => simp [stepLedger, query_vector_db]
  | sql q =>
    simp only [stepLedger, query_sql]
    cases hg : query_sql_guard q with
    | some kw => simp
    | none =>
      cases he : execute_read_query exec q with
      | error e => simp
      | ok rows => simp

theorem runLedger_append_general (search : List Char → Nat → List (Document × Int))
    (exec : List Char → ExecOutcome) (steps : List ToolStep) :
    ∀ l : List ToolCallRecord,
      runLedger search exec steps l = l ++ runLedger search exec steps [] := by
  induction steps with
  | nil => intro l; simp [runLedger]
  | cons s ss ih =>
    intro l
    show runLedger search exec ss (stepLedger search exec l s) =
      l ++ runLedger search exec ss (stepLedger search exec [] s)
    rw [ih (stepLedger search exec l s), stepLedger_append, List.append_assoc,
      ← ih (stepLedger search exec [] s)]

/-! Claim theorems. -/

/-- C1: For every (ASCII) query string in which a forbidden keyword appears
as a standalone token — bounded by non-word characters or string edges,
case-insensitively, at any position including after a statement separator —
the keyword gate of query_sql rejects the query: the guard raises before
execution, the raised error names a forbidden keyword that occurs as a
standalone token in the query, and the ledger is untouched. -/
theorem guard_rejects_standalone_keyword (q kw : List Char)
    (hq : allASCII q = true) (hk : kw ∈ forbidden_keywords)
    (hocc : standaloneOccurs kw q = true) :
    ∃ kw2, kw2 ∈ forbidden_keywords ∧ standaloneOccurs kw2 q = true ∧
      query_sql_guard q = some kw2 ∧
      ∀ exec ledger, query_sql exec ledger q = (SqlToolResult.rejected kw2, ledger) := by
  have hpred : standaloneOccurs kw (pyStrip q) = true := by
    rw [standaloneOccurs_pyStrip (forbidden_kwGood kw hk)]
    exact hocc
  have hsome :
      (forbidden_keywords.find? (fun k2 => standaloneOccurs k2 (pyStrip q))).isSome := by
    rw [List.find?_isSome]
    exact ⟨kw, hk, hpred⟩
  obtain ⟨kw2, hfind⟩ := Option.isSome_iff_exists.mp hsome
  have hmem : kw2 ∈ forbidden_keywords := List.mem_of_find?_eq_some hfind
  have hguard : query_sql_guard q = some kw2 := hfind
  refine ⟨kw2, hmem, ?_, hguard, ?_⟩
  · have h2 := List.find?_some hfind
    rw [← standaloneOccurs_pyStrip (forbidden_kwGood kw2 hmem)]
    exact h2
  · intro exec ledger
    simp [query_sql, hguard]

/-- C1 witness: the stacked-statement example.  The DROP keyword occurs as a
standalone token after the statement separator, the guard rejects and the
raised error names DROP. -/
theorem guard_rejects_standalone_keyword_witness :
    allASCII dropQuery = true ∧ ("DROP").data ∈ forbidden_keywords ∧
      standaloneOccurs (("DROP").data) dropQuery = true ∧
      query_sql_guard dropQuery = some (("DROP").data) ∧
      (∃ kw2, kw2 ∈ forbidden_keywords ∧ standaloneOccurs kw2 dropQuery = true ∧
        query_sql_guard dropQuery = some kw2 ∧
        ∀ exec ledger,
          query_sql exec ledger dropQuery = (SqlToolResult.rejected kw2, ledger)) :=
  ⟨by decide, by decide, by decide, by decide,
    guard_rejects_standalone_keyword dropQuery (("DROP").data)
      (by decide) (by decide) (by decide)⟩

/-- C2: For every (ASCII) query string in which no forbidden keyword occurs
as a standalone token — in particular when forbidden keywords appear only
as proper substrings of longer identifiers — the keyword gate does not
reject the query: the guard returns none. -/
theorem guard_admits_without_standalone_keyword (q : List Char)
    (hq : allASCII q = true)
    (h : ∀ kw ∈ forbidden_keywords, standaloneOccurs kw q = false) :
    query_sql_guard q = none := by
  simp only [query_sql_guard]
  rw [List.find?_eq_none]
  intro kw hkw
  rw [standaloneOccurs_pyStrip (forbidden_kwGood kw hkw), h kw hkw]
  simp

/-- C2 witness: the createdBy example contains CREATE only as a proper
substring of the identifier createdBy, and the keyword gate admits it. -/
theorem guard_admits_without_standalone_keyword_witness :
    allASCII createdByQuery = true ∧
      (∀ kw ∈ forbidden_keywords, standaloneOccurs kw createdByQuery = false) ∧
      query_sql_guard createdByQuery = none :=
  ⟨by decide, by decide,
    guard_admits_without_standalone_keyword createdByQuery (by decide) (by decide)⟩

/-- C3: For every (ASCII) query whose stripped, upper-cased text does not
begin with SELECT, execute_read_query raises the rejection ValueError — for
every database behavior, so independently of any guard outcome — and no
statement is handed to the database engine. -/
theorem store_rejects_non_select (exec : List Char → ExecOutcome) (q : List Char)
    (hq : allASCII q = true) (h : startsWithSelect q = false) :
    execute_read_query exec q = Except.error StoreError.rejectedQuery ∧
      (execute_read_query_tr true exec q).dbExecuted = false := by
  constructor <;> simp [execute_read_query, execute_read_query_tr, h]

/-- C3 witness: the PRAGMA example contains no forbidden keyword (the
keyword gate admits it), yet the store rejects it because it does not begin
with SELECT, and nothing is executed against the database. -/
theorem store_rejects_non_select_witness :
    allASCII pragmaQuery = true ∧ startsWithSelect pragmaQuery = false ∧
      query_sql_guard pragmaQuery = none ∧
      (execute_read_query execEmpty pragmaQuery = Except.error StoreError.rejectedQuery ∧
        (execute_read_query_tr true execEmpty pragmaQuery).dbExecuted = false) :=
  ⟨by decide, by decide, by decide,
    store_rejects_non_select execEmpty pragmaQuery (by decide) (by decide)⟩

/-- C4: For every SELECT-leading query on which the database engine fails
(modelled by the exec oracle raising sqlite3.Error) or matches no rows,
execute_read_query returns ok with the empty row list: the underlying error
is not propagated and the result is never null. -/
theorem store_fail_soft_empty (exec : List Char → ExecOutcome) (q : List Char)
    (hsel : startsWithSelect q = true)
    (hfail : exec q = ExecOutcome.sqlErr ∨ exec q = ExecOutcome.rows []) :
    execute_read_query exec q = Except.ok ([] : List Row) := by
  rcases hfail with h | h <;>
    simp [execute_read_query, execute_read_query_tr, hsel, h]

/-- C4 witness: a SELECT against a missing table fails inside the engine and
the store converts the failure to the empty result. -/
theorem store_fail_soft_empty_witness :
    startsWithSelect missingTableQuery = true ∧
      execFail missingTableQuery = ExecOutcome.sqlErr ∧
      execute_read_query execFail missingTableQuery = Except.ok ([] : List Row) :=
  ⟨by decide, rfl,
    store_fail_soft_empty execFail missingTableQuery (by decide) (Or.inl rfl)⟩

/-- C9: The start-of-statement gate of the store is a character-prefix
check, not a token check: every query whose stripped, upper-cased text
begins with the six characters SELECT passes the gate — the statement is
handed to the database engine and its outcome is returned (rows, or empty
on engine failure), never the rejection error. -/
theorem store_gate_char_prefix (exec : List Char → ExecOutcome) (q : List Char)
    (h : startsWithSelect q = true) :
    execute_read_query exec q =
      Except.ok (match exec q with
        | ExecOutcome.rows rs => rs
        | ExecOutcome.sqlErr => []) ∧
      (execute_read_query_tr true exec q).dbExecuted = true := by
  constructor <;>
    · simp only [execute_read_query, execute_read_query_tr, h, if_true]
      cases exec q <;> rfl

/-- C9 witness: a query beginning with the word SELECTION, where SELECT is
not a standalone leading keyword, still passes the character-prefix gate
and is executed. -/
theorem store_gate_char_prefix_witness :
    startsWithSelect selectionQuery = true ∧
      (execute_read_query execEmpty selectionQuery =
        Except.ok (match execEmpty selectionQuery with
          | ExecOutcome.rows rs => rs
          | ExecOutcome.sqlErr => []) ∧
        (execute_read_query_tr true execEmpty selectionQuery).dbExecuted = true) :=
  ⟨by decide, store_gate_char_prefix execEmpty selectionQuery (by decide)⟩

/-- C8: every call to execute_read_query closes exactly the connections it
opened, on every exit path — rows returned, engine failure converted to the
empty result, rejection ValueError raised, and even a failed connect — and
a call with a working connect opens exactly one connection.  No connection
survives the call. -/
theorem store_connection_balanced (connectOk : Bool)
    (exec : List Char → ExecOutcome) (q : List Char) :
    (execute_read_query_tr connectOk exec q).closed =
        (execute_read_query_tr connectOk exec q).opened ∧
      (execute_read_query_tr true exec q).opened = 1 := by
  constructor <;>
    · cases hb : startsWithSelect q <;> cases he : exec q <;> cases connectOk <;>
        simp [execute_read_query_tr, hb, he]

/-- C6: at the start of every orchestration run, in both the blocking mode
aeval and the streaming mode ainvoke, the tool-call ledger is reset to the
empty list before any tool executes: the run result is independent of the
instance state left by any previous run — the ledger returned by run B
equals the ledger accumulated from the empty list by B's own tool calls,
with none of run A's records (tool dispatch only appends, last conjunct). -/
theorem ledger_reset_per_run (search : List Char → Nat → List (Document × Int))
    (exec : List Char → ExecOutcome) (stA stB : AgentState)
    (steps : List ToolStep) (answer : List Char) (chunks : List (List Char)) :
    (aeval search exec stA steps answer).1.2 = runLedger search exec steps [] ∧
      aeval search exec stA steps answer = aeval search exec stB steps answer ∧
      (ainvoke search exec stA steps chunks).2.tool_calls =
        runLedger search exec steps [] ∧
      ainvoke search exec stA steps chunks = ainvoke search exec stB steps chunks ∧
      (∀ l : List ToolCallRecord,
        runLedger search exec steps l = l ++ runLedger search exec steps []) :=
  ⟨rfl, rfl, rfl, rfl, runLedger_append_general search exec steps⟩

/-- C7 counterexample: an invocation of the SQL tool that raises during
execution (the store ValueError for a non-SELECT-leading query, re-raised
by the except clause of query_sql) surfaces the error with the ledger left
empty: no ToolCallRecord of any status is appended on the failure path,
contrary to the claim. -/
theorem sql_tool_error_appends_nothing :
    (query_sql execEmpty [] pragmaQuery).1 = SqlToolResult.dbError ∧
      (query_sql execEmpty [] pragmaQuery).2 = [] := by
  constructor <;> rfl

/-- C7 (amended): on execution success query_sql appends exactly one
ToolCallRecord with status success; on every raised error — keyword-gate
rejection or an error raised during execution — no record is appended and
the ledger is returned unchanged when the error is surfaced. -/
theorem sql_tool_ledger_success_only (exec : List Char → ExecOutcome)
    (ledger : List ToolCallRecord) (q : List Char) :
    (∃ rows, query_sql exec ledger q =
        (SqlToolResult.ok rows, ledger ++ [⟨sqlToolName, q, successStatus⟩])) ∨
      (∃ kw, query_sql exec ledger q = (SqlToolResult.rejected kw, ledger)) ∨
      query_sql exec ledger q = (SqlToolResult.dbError, ledger) := by
  unfold query_sql
  cases hg : query_sql_guard q with
  | some kw => exact Or.inr (Or.inl ⟨kw, rfl⟩)
  | none =>
    cases he : execute_read_query exec q with
    | error e => exact Or.inr (Or.inr rfl)
    | ok rows => exact Or.inl ⟨rows, rfl⟩

/-- C5 counterexample: on the knowledge base created with no PDFs — the
empty-index case — retrieve returns the placeholder init document, not an
empty sequence: the index created by the no-PDF branch contains one dummy
document and a similarity search over it returns it. -/
theorem retrieve_no_pdfs_not_empty :
    retrieve (similarity_search_with_relevance_scores score0 index_from_no_pdfs)
        (("fraud").data) 5 20 = [(dummy_doc, 0)] ∧
      ([(dummy_doc, 0)] : List (Document × Int)) ≠ [] := by
  constructor
  · rfl
  · simp

/-- C5 (amended): retrieve on the index created with no PDFs never fails and
returns exactly the singleton placeholder document (with its score), for
every score oracle, query and top_k, whenever fetch_k is at least one. -/
theorem retrieve_no_pdfs_returns_placeholder (score : List Char → Document → Int)
    (q : List Char) (top_k fetch_k : Nat) (h : 1 ≤ fetch_k) :
    retrieve (similarity_search_with_relevance_scores score index_from_no_pdfs)
        q top_k fetch_k = [(dummy_doc, score q dummy_doc)] := by
  cases fetch_k with
  | zero => omega
  | succ n =>
    simp [retrieve, similarity_search_with_relevance_scores, index_from_no_pdfs]

/-- C5 amended-claim witness at the source defaults top_k 5, fetch_k 20. -/
theorem retrieve_no_pdfs_returns_placeholder_witness :
    1 ≤ 20 ∧
      retrieve (similarity_search_with_relevance_scores score1 index_from_no_pdfs)
        (("x").data) 5 20 = [(dummy_doc, score1 (("x").data) dummy_doc)] :=
  ⟨by decide,
    retrieve_no_pdfs_returns_placeholder score1 (("x").data) 5 20 (by decide)⟩

/-- C10: the output of retrieve is independent of top_k — for any two
values of top_k the result is identical, for every underlying search — and
equals the fetch_k-wide candidate list of the similarity search, which has
at most fetch_k documents: top_k performs no final narrowing. -/
theorem retrieve_independent_of_top_k
    (search : List Char → Nat → List (Document × Int))
    (score : List Char → Document → Int) (store : List Document)
    (q : List Char) (k1 k2 fetch_k : Nat) :
    retrieve search q k1 fetch_k = retrieve search q k2 fetch_k ∧
      retrieve (similarity_search_with_relevance_scores score store) q k1 fetch_k =
        similarity_search_with_relevance_scores score store q fetch_k ∧
      (retrieve (similarity_search_with_relevance_scores score store)
          q k1 fetch_k).length ≤ fetch_k := by
  refine ⟨rfl, rfl, ?_⟩
  simp only [retrieve, similarity_search_with_relevance_scores]
  exact List.length_take_le fetch_k _
